import Mathlib

/-!
Shallow embedding of the Connection & Tunnel Engine of the vesper repository
(src/src-tauri/src: ssh.rs, storage.rs, commands.rs, settings.rs).

Rust HashMaps are modelled as association lists (insert replaces the key's
binding).  Machine integers (`u16` ports, `u32` window sizes) are modelled as
`Nat`; `SystemTime` is modelled as `Nat` (seconds).  The opaque SSH session
handle is modelled by the mere presence of an endpoint id in the session
registry; the tokio task handle of an active tunnel is modelled by the tunnel
snapshot stored in the active map.  All network and clock effects are supplied
by explicit environment records, and the externally observable actions of the
stateful operations are recorded in an event trace.
-/

namespace Vesper

/-- `AuthMethod` from ssh.rs lines 36-41 (serialized lowercase). -/
inductive AuthMethod where
  | password
  | key
deriving DecidableEq

/-- `ConnectionStatus` from ssh.rs lines 43-50 (serialized lowercase). -/
inductive ConnectionStatus where
  | disconnected
  | connecting
  | connected
  | error
deriving DecidableEq

/-- `TunnelType` from ssh.rs lines 80-85 (serialized lowercase). -/
inductive TunnelType where
  | localFwd
  | remoteFwd
deriving DecidableEq

/-- `TunnelStatus` from ssh.rs lines 87-93 (serialized lowercase). -/
inductive TunnelStatus where
  | inactive
  | active
  | error
deriving DecidableEq

/-- `SSHConnection` from ssh.rs lines 13-30.  `password`, `key_path` and
`last_connected` carry serde `skip_serializing_if = Option.is_none`;
`created_at` carries `serde(default = default_created_at)`. -/
structure SSHConnection where
  id : String
  name : String
  host : String
  port : Nat
  username : String
  auth_method : AuthMethod
  password : Option String
  key_path : Option String
  status : ConnectionStatus
  last_connected : Option Nat
  created_at : Nat
deriving DecidableEq

/-- `SSHTunnel` from ssh.rs lines 52-63. -/
structure SSHTunnel where
  id : String
  connection_id : String
  name : String
  tunnel_type : TunnelType
  local_port : Nat
  remote_host : String
  remote_port : Nat
  status : TunnelStatus
  auto_reconnect : Bool
deriving DecidableEq

/-- `ConnectionResult` from ssh.rs lines 95-100. -/
structure ConnectionResult where
  success : Bool
  message : String
  error_code : Option String
deriving DecidableEq

/-- `AppConfig` from settings.rs lines 3-12. -/
structure AppConfig where
  theme : String
  language : String
  auto_start : Bool
  log_level : String
  default_key_path : Option String
  window_width : Nat
  window_height : Nat
deriving DecidableEq

/-- `AppConfig::default` from settings.rs lines 14-26. -/
def defaultAppConfig : AppConfig :=
  { theme := "system"
    language := "en"
    auto_start := false
    log_level := "info"
    default_key_path := none
    window_width := 1200
    window_height := 800 }

/-! ### Association lists modelling `HashMap<String, _>` -/

/-- The model of `HashMap<String, α>`: an association list where an insert
replaces any previous binding of the key. -/
abbrev AList (α : Type) := List (String × α)

/-- Lookup of a key, `HashMap::get`. -/
def lookupA {α : Type} (k : String) : AList α → Option α
  | [] => none
  | (k2, v) :: rest => if k2 = k then some v else lookupA k rest

/-- Remove all bindings of a key, `HashMap::remove`. -/
def eraseA {α : Type} (k : String) : AList α → AList α
  | [] => []
  | (k2, v) :: rest => if k2 = k then eraseA k rest else (k2, v) :: eraseA k rest

/-- `HashMap::insert`: bind `k` to `v`, replacing any previous binding. -/
def insertA {α : Type} (k : String) (v : α) (m : AList α) : AList α :=
  (k, v) :: eraseA k m

/-- In-place update of the binding of `k` when present, `HashMap::get_mut`
followed by field assignments. -/
def modifyA {α : Type} (k : String) (f : α → α) (m : AList α) : AList α :=
  m.map (fun p => if p.1 = k then (p.1, f p.2) else p)

/-! ### Persisted document and engine state -/

/-- `AppData` from storage.rs lines 8-13: the single JSON document on disk. -/
structure AppData where
  connections : AList SSHConnection
  tunnels : AList SSHTunnel
  settings : AppConfig
deriving DecidableEq

/-- `AppData::default` from storage.rs lines 15-23. -/
def defaultAppData : AppData :=
  { connections := [], tunnels := [], settings := defaultAppConfig }

/-- The on-disk state: `none` when `data.json` does not exist. -/
abbrev DiskState := Option AppData

/-- `DataManager::load_data_sync` (storage.rs lines 46-61): a missing file
yields the default document.  (The parse-failure path of the source is not
representable here because the disk model stores already-parsed documents.) -/
def load_data (disk : DiskState) : AppData :=
  match disk with
  | none => defaultAppData
  | some d => d

/-- `DataManager::save_connections_and_tunnels` (storage.rs lines 124-133):
reload the current document, replace only the two maps, write it back. -/
def save_connections_and_tunnels (connections : AList SSHConnection)
    (tunnels : AList SSHTunnel) (disk : DiskState) : DiskState :=
  let data := load_data disk
  some { data with connections := connections, tunnels := tunnels }

/-- The in-memory state of `ConnectionManager` (ssh.rs lines 102-108). -/
structure ManagerState where
  connections : AList SSHConnection
  tunnels : AList SSHTunnel
  ssh_sessions : List String
  active_tunnels : AList SSHTunnel
deriving DecidableEq

/-- `ConnectionManager::new` (ssh.rs lines 111-118). -/
def newManager : ManagerState :=
  { connections := [], tunnels := [], ssh_sessions := [], active_tunnels := [] }

/-- The engine state together with the persisted file. -/
structure FullState where
  mgr : ManagerState
  disk : DiskState
deriving DecidableEq

/-- The initial state: fresh manager, no `data.json` on disk. -/
def emptyState : FullState := { mgr := newManager, disk := none }

/-- `ConnectionManager::save_to_storage` (ssh.rs lines 164-176): snapshot the
two maps and hand them to the persistence layer. -/
def save_to_storage (fs : FullState) : FullState :=
  { fs with
      disk := save_connections_and_tunnels fs.mgr.connections fs.mgr.tunnels fs.disk }

/-- `ConnectionManager::load_from_storage` (ssh.rs lines 149-162), reached via
`ConnectionManager::initialize`: replace both in-memory maps with the document
content, exactly as parsed. -/
def load_from_storage (fs : FullState) : FullState :=
  let d := load_data fs.disk
  { fs with mgr := { fs.mgr with connections := d.connections, tunnels := d.tunnels } }

/-! ### Catalog operations (ssh.rs) -/

/-- `ConnectionManager::add_connection` (ssh.rs lines 178-192).  `fresh` stands
for the `generate_id()` UUID and `now` for `SystemTime::now()`. -/
def add_connection (fs : FullState) (connection : SSHConnection)
    (fresh : String) (now : Nat) : Except String (String × FullState) :=
  let c := { connection with
               id := fresh
               created_at := now
               status := ConnectionStatus.disconnected }
  let mgr := { fs.mgr with connections := insertA fresh c fs.mgr.connections }
  Except.ok (fresh, save_to_storage { fs with mgr := mgr })

/-- `ConnectionManager::update_connection` (ssh.rs lines 194-216): merge the
seven mutable fields in place; `status`, `last_connected`, `created_at` are not
assigned. -/
def update_connection (fs : FullState) (id : String) (updates : SSHConnection) :
    Except String FullState :=
  match lookupA id fs.mgr.connections with
  | some _ =>
      let mgr := { fs.mgr with
                     connections := modifyA id (fun c =>
                       { c with
                           name := updates.name
                           host := updates.host
                           port := updates.port
                           username := updates.username
                           auth_method := updates.auth_method
                           password := updates.password
                           key_path := updates.key_path }) fs.mgr.connections }
      Except.ok (save_to_storage { fs with mgr := mgr })
  | none => Except.error "Connection not found"

/-- `ConnectionManager::delete_connection` (ssh.rs lines 218-256): abort and
drop the active tunnels of the connection, remove the connection, retain only
tunnels of other connections, persist. -/
def delete_connection (fs : FullState) (id : String) : Except String FullState :=
  let m1 := { fs.mgr with
                active_tunnels :=
                  fs.mgr.active_tunnels.filter (fun p => p.2.connection_id ≠ id) }
  let m2 := { m1 with connections := eraseA id m1.connections }
  let m3 := { m2 with
                tunnels := m2.tunnels.filter (fun p => p.2.connection_id ≠ id) }
  Except.ok (save_to_storage { fs with mgr := m3 })

/-- `ConnectionManager::get_tunnels_by_connection` (ssh.rs lines 552-559). -/
def get_tunnels_by_connection (mgr : ManagerState) (connection_id : String) :
    List SSHTunnel :=
  (mgr.tunnels.filter (fun p => p.2.connection_id = connection_id)).map (fun p => p.2)

/-- `ConnectionManager::add_tunnel` (ssh.rs lines 483-496).  Note: the
connection id carried by the tunnel is stored without any existence check. -/
def add_tunnel (fs : FullState) (tunnel : SSHTunnel) (fresh : String) :
    Except String (String × FullState) :=
  let t := { tunnel with id := fresh, status := TunnelStatus.inactive }
  let mgr := { fs.mgr with tunnels := insertA fresh t fs.mgr.tunnels }
  Except.ok (fresh, save_to_storage { fs with mgr := mgr })

/-- `ConnectionManager::update_tunnel` (ssh.rs lines 498-515): merge the six
mutable fields; `connection_id` and `status` are not assigned. -/
def update_tunnel (fs : FullState) (id : String) (updates : SSHTunnel) :
    Except String FullState :=
  match lookupA id fs.mgr.tunnels with
  | some _ =>
      let mgr := { fs.mgr with
                     tunnels := modifyA id (fun t =>
                       { t with
                           name := updates.name
                           tunnel_type := updates.tunnel_type
                           local_port := updates.local_port
                           remote_host := updates.remote_host
                           remote_port := updates.remote_port
                           auto_reconnect := updates.auto_reconnect }) fs.mgr.tunnels }
      Except.ok (save_to_storage { fs with mgr := mgr })
  | none => Except.error "Tunnel not found"

/-- `ConnectionManager::delete_tunnel` (ssh.rs lines 517-544): abort the active
worker when present, remove the tunnel record, persist.  Succeeds whether or
not the tunnel exists. -/
def delete_tunnel (fs : FullState) (id : String) : Except String FullState :=
  let m1 := { fs.mgr with active_tunnels := eraseA id fs.mgr.active_tunnels }
  let m2 := { m1 with tunnels := eraseA id m1.tunnels }
  Except.ok (save_to_storage { fs with mgr := m2 })

/-- `ConnectionManager::stop_tunnel` (ssh.rs lines 562-590): abort the active
worker when present, set the stored status to `Inactive` when the record
exists, persist.  Succeeds in every case. -/
def stop_tunnel (fs : FullState) (id : String) : Except String FullState :=
  let m1 := { fs.mgr with active_tunnels := eraseA id fs.mgr.active_tunnels }
  let m2 := { m1 with
                tunnels := modifyA id (fun t => { t with status := TunnelStatus.inactive })
                  m1.tunnels }
  Except.ok (save_to_storage { fs with mgr := m2 })

/-! ### Observable events of the lifecycle operations -/

/-- Externally observable actions performed by `connect_ssh` and
`disconnect_ssh`, in program order. -/
inductive Event where
  | setConnStatus (id : String) (st : ConnectionStatus)
  | runAuth (id : String)
  | insertSession (id : String)
  | removeSession (id : String)
  | cancelWorker (tunnelId : String)
  | setTunnelStatus (tunnelId : String) (st : TunnelStatus)
  | saveStorage
deriving DecidableEq

/-- Environment oracle for `connect_ssh`: the outcome of the initial
`test_ssh_connection` probe, the outcome of `establish_ssh_session`, the clock,
and per-tunnel success of `start_local_forwarding` / `start_remote_forwarding`
(`false` models a bind / forward-listen failure). -/
structure ConnectEnv where
  testResult : ConnectionResult
  establishOk : Bool
  now : Nat
  startOk : String → Bool

/-- The loop body of `ConnectionManager::start_all_tunnels_for_connection`
(ssh.rs lines 593-655): for each tunnel of the connection, when a session for
the connection is registered, start the forwarder, record the active tunnel and
set the stored status to `Active`; a start failure propagates out (`?`) and the
remaining tunnels are not processed. -/
def startTunnels (cid : String) (startOk : String → Bool) :
    List SSHTunnel → ManagerState → ManagerState
  | [], s => s
  | t :: rest, s =>
      if s.ssh_sessions.contains cid then
        if startOk t.id then
          let s1 := { s with
                        active_tunnels := insertA t.id t s.active_tunnels,
                        tunnels := modifyA t.id
                          (fun x => { x with status := TunnelStatus.active }) s.tunnels }
          startTunnels cid startOk rest s1
        else s
      else startTunnels cid startOk rest s

/-- `ConnectionManager::start_all_tunnels_for_connection` (ssh.rs
lines 593-655). -/
def start_all_tunnels_for_connection (s : ManagerState) (cid : String)
    (startOk : String → Bool) : ManagerState :=
  startTunnels cid startOk (get_tunnels_by_connection s cid) s

/-- `ConnectionManager::connect_ssh` (ssh.rs lines 272-354), with its
observable event trace.  Note that the `Connecting` status is written to the
in-memory map only; the single `save_to_storage` call of the function sits on
the success path, after the tunnels are started. -/
def connect_ssh (fs : FullState) (env : ConnectEnv) (id : String) :
    ConnectionResult × FullState × List Event :=
  match lookupA id fs.mgr.connections with
  | none =>
      ({ success := false, message := "Connection not found", error_code := none },
       fs, [])
  | some _ =>
      let m1 := { fs.mgr with
                    connections := modifyA id
                      (fun c => { c with status := ConnectionStatus.connecting })
                      fs.mgr.connections }
      let ev1 := [Event.setConnStatus id ConnectionStatus.connecting, Event.runAuth id]
      if env.testResult.success = false then
        let m2 := { m1 with
                      connections := modifyA id
                        (fun c => { c with status := ConnectionStatus.error })
                        m1.connections }
        (env.testResult, { fs with mgr := m2 },
         ev1 ++ [Event.setConnStatus id ConnectionStatus.error])
      else if env.establishOk then
        let m2 := { m1 with ssh_sessions := id :: m1.ssh_sessions }
        let m3 := { m2 with
                      connections := modifyA id
                        (fun c => { c with
                                      status := ConnectionStatus.connected
                                      last_connected := some env.now })
                        m2.connections }
        let m4 := start_all_tunnels_for_connection m3 id env.startOk
        ({ success := true, message := "SSH connection established", error_code := none },
         save_to_storage { fs with mgr := m4 },
         ev1 ++ [Event.insertSession id,
                 Event.setConnStatus id ConnectionStatus.connected,
                 Event.saveStorage])
      else
        let m2 := { m1 with
                      connections := modifyA id
                        (fun c => { c with status := ConnectionStatus.error })
                        m1.connections }
        ({ success := false
           message := "Failed to establish SSH connection"
           error_code := some "CONNECTION_FAILED" },
         { fs with mgr := m2 },
         ev1 ++ [Event.setConnStatus id ConnectionStatus.error])

/-- Set the stored status of each listed tunnel id to `Inactive` (the marking
loop of `disconnect_ssh`, ssh.rs lines 391-401). -/
def markInactive (ids : List String) (tunnels : AList SSHTunnel) : AList SSHTunnel :=
  match ids with
  | [] => tunnels
  | i :: rest =>
      markInactive rest
        (modifyA i (fun t => { t with status := TunnelStatus.inactive }) tunnels)

/-- `ConnectionManager::disconnect_ssh` (ssh.rs lines 356-428), with its
observable event trace.  The source flips the connection status to
`Disconnected` first (line 361), then aborts and removes the active workers of
the connection, then marks the tunnel records `Inactive`, then removes the
session, and finally persists. -/
def disconnect_ssh (fs : FullState) (id : String) :
    ConnectionResult × FullState × List Event :=
  match lookupA id fs.mgr.connections with
  | none =>
      ({ success := false, message := "Connection not found",
         error_code := some "NOT_FOUND" }, fs, [])
  | some _ =>
      let m1 := { fs.mgr with
                    connections := modifyA id
                      (fun c => { c with status := ConnectionStatus.disconnected })
                      fs.mgr.connections }
      let removeIds :=
        (m1.active_tunnels.filter (fun p => p.2.connection_id = id)).map (fun p => p.1)
      let m2 := { m1 with
                    active_tunnels :=
                      m1.active_tunnels.filter (fun p => p.2.connection_id ≠ id) }
      let connTunnels := get_tunnels_by_connection m2 id
      let m3 := { m2 with
                    tunnels := markInactive (connTunnels.map (fun (t : SSHTunnel) => t.id)) m2.tunnels }
      let m4 := { m3 with ssh_sessions := m3.ssh_sessions.filter (fun s => s ≠ id) }
      ({ success := true
         message := "SSH connection and all tunnels closed gracefully"
         error_code := none },
       save_to_storage { fs with mgr := m4 },
       [Event.setConnStatus id ConnectionStatus.disconnected]
         ++ removeIds.map Event.cancelWorker
         ++ connTunnels.map (fun t => Event.setTunnelStatus t.id TunnelStatus.inactive)
         ++ [Event.removeSession id]
         ++ [Event.saveStorage])

/-! ### The connection test probe -/

/-- The `Duration::from_secs(5)` bound of `test_ssh_connection`
(ssh.rs line 1020). -/
def test_timeout_secs : Nat := 5

/-- TCP connect error kinds distinguished by `test_ssh_connection_async`
(ssh.rs lines 1060-1065). -/
inductive TcpErrKind where
  | connectionRefused
  | timedOut
  | hostUnreachable
  | otherErr
deriving DecidableEq

/-- Environment oracle for the test probe: how long the probe runs, whether
each key path exists on disk, and the outcome of each network step. -/
structure TestEnv where
  elapsed_secs : Nat
  key_exists : String → Bool
  tcp : Option TcpErrKind
  session_create_ok : Bool
  handshake_ok : Bool
  auth_ok : Bool
  authenticated : Bool

/-- `test_ssh_connection_async` (ssh.rs lines 1035-1168): key-path validation,
TCP connect, session creation, handshake, authentication, verification. -/
def test_ssh_connection_async (env : TestEnv) (connection : SSHConnection) :
    ConnectionResult :=
  match connection.auth_method, connection.key_path with
  | AuthMethod.key, none =>
      { success := false
        message := "Key authentication requires specifying a key file path"
        error_code := some "KEY_PATH_MISSING" }
  | AuthMethod.key, some p =>
      if env.key_exists p = false then
        { success := false
          message := "Key file does not exist"
          error_code := some "KEY_FILE_NOT_FOUND" }
      else test_probe_after_validation env connection
  | AuthMethod.password, _ => test_probe_after_validation env connection
where
  /-- Steps 2-6 of the probe (TCP connect onwards). -/
  test_probe_after_validation (env : TestEnv) (connection : SSHConnection) :
      ConnectionResult :=
    match env.tcp with
    | some kind =>
        let code := match kind with
          | TcpErrKind.connectionRefused => "CONNECTION_REFUSED"
          | TcpErrKind.timedOut => "CONNECTION_TIMEOUT"
          | TcpErrKind.hostUnreachable => "HOST_UNREACHABLE"
          | TcpErrKind.otherErr => "TCP_CONNECTION_ERROR"
        { success := false
          message := "Unable to connect to server"
          error_code := some code }
    | none =>
        if env.session_create_ok = false then
          { success := false
            message := "Failed to create SSH session"
            error_code := some "SSH_SESSION_ERROR" }
        else if env.handshake_ok = false then
          { success := false
            message := "SSH handshake failed"
            error_code := some "SSH_HANDSHAKE_ERROR" }
        else
          match connection.auth_method, connection.password, connection.key_path with
          | AuthMethod.password, none, _ =>
              { success := false
                message := "Password authentication requires providing a password"
                error_code := some "PASSWORD_MISSING" }
          | AuthMethod.key, _, none =>
              { success := false
                message := "Key authentication requires providing a key file path"
                error_code := some "KEY_PATH_MISSING" }
          | AuthMethod.key, _, some p =>
              if env.key_exists p = false then
                { success := false
                  message := "Private key file not found"
                  error_code := some "KEY_FILE_NOT_FOUND" }
              else auth_outcome env
          | AuthMethod.password, some _, _ => auth_outcome env
  /-- Shared tail: the userauth call and the `authenticated()` check. -/
  auth_outcome (env : TestEnv) : ConnectionResult :=
    if env.auth_ok = false then
      { success := false
        message := "SSH authentication failed"
        error_code := some "SSH_AUTH_ERROR" }
    else if env.authenticated then
      { success := true
        message := "SSH connection test successful"
        error_code := none }
    else
      { success := false
        message := "SSH authentication failed"
        error_code := some "SSH_AUTH_ERROR" }

/-- `test_ssh_connection` (ssh.rs lines 1017-1032): the whole probe under the
5-second tokio timeout; on elapse the result carries code `TIMEOUT`. -/
def test_ssh_connection (env : TestEnv) (connection : SSHConnection) :
    ConnectionResult :=
  if test_timeout_secs < env.elapsed_secs then
    { success := false
      message := "SSH connection test timed out"
      error_code := some "TIMEOUT" }
  else test_ssh_connection_async env connection

/-- `ConnectionManager::test_connection` (ssh.rs lines 268-270): delegates to
the free probe function; the engine state and the disk are never touched. -/
def mgr_test_connection (fs : FullState) (env : TestEnv)
    (connection : SSHConnection) : ConnectionResult × FullState :=
  (test_ssh_connection env connection, fs)

/-! ### Command layer (commands.rs) -/

/-- `UpdateTunnelRequest` from commands.rs lines 41-51. -/
structure UpdateTunnelRequest where
  id : String
  name : String
  connection_id : String
  tunnel_type : String
  local_port : Nat
  remote_host : String
  remote_port : Nat
  auto_reconnect : Bool
deriving DecidableEq

/-- Parsing of the `tunnel_type` string field (commands.rs lines 239-243). -/
def parseTunnelType (s : String) : Option TunnelType :=
  if s = "local" then some TunnelType.localFwd
  else if s = "remote" then some TunnelType.remoteFwd
  else none

/-- The `update_tunnel` tauri command (commands.rs lines 228-258): look up the
existing tunnel, rebuild an `SSHTunnel` carrying the request's
`connection_id`, preserve the current status, and hand it to
`ConnectionManager::update_tunnel`. -/
def cmd_update_tunnel (fs : FullState) (request : UpdateTunnelRequest) :
    Except String FullState :=
  match (fs.mgr.tunnels.map (fun p => p.2)).find? (fun (t : SSHTunnel) => t.id = request.id) with
  | none => Except.error "Tunnel not found"
  | some existing =>
      match parseTunnelType request.tunnel_type with
      | none => Except.error "Invalid tunnel type"
      | some tt =>
          update_tunnel fs request.id
            { id := request.id
              name := request.name
              connection_id := request.connection_id
              tunnel_type := tt
              local_port := request.local_port
              remote_host := request.remote_host
              remote_port := request.remote_port
              status := existing.status
              auto_reconnect := request.auto_reconnect }

/-! ### The public operation sequences of the engine -/

/-- One call of the public API, with the nondeterministic inputs (fresh UUIDs,
clock values, network outcomes) supplied as parameters. -/
inductive Op where
  | addConn (c : SSHConnection) (fresh : String) (now : Nat)
  | updateConn (id : String) (u : SSHConnection)
  | deleteConn (id : String)
  | addTun (t : SSHTunnel) (fresh : String)
  | updateTun (id : String) (u : SSHTunnel)
  | deleteTun (id : String)
  | stopTun (id : String)
  | connectC (id : String) (env : ConnectEnv)
  | disconnectC (id : String)

/-- Apply one public operation to the state (a failed operation leaves the
state as the operation left it, which for every error path is unchanged). -/
def applyOp (fs : FullState) : Op → FullState
  | Op.addConn c fresh now =>
      match add_connection fs c fresh now with
      | Except.ok (_, fs2) => fs2
      | Except.error _ => fs
  | Op.updateConn id u =>
      match update_connection fs id u with
      | Except.ok fs2 => fs2
      | Except.error _ => fs
  | Op.deleteConn id =>
      match delete_connection fs id with
      | Except.ok fs2 => fs2
      | Except.error _ => fs
  | Op.addTun t fresh =>
      match add_tunnel fs t fresh with
      | Except.ok (_, fs2) => fs2
      | Except.error _ => fs
  | Op.updateTun id u =>
      match update_tunnel fs id u with
      | Except.ok fs2 => fs2
      | Except.error _ => fs
  | Op.deleteTun id =>
      match delete_tunnel fs id with
      | Except.ok fs2 => fs2
      | Except.error _ => fs
  | Op.stopTun id =>
      match stop_tunnel fs id with
      | Except.ok fs2 => fs2
      | Except.error _ => fs
  | Op.connectC id env => (connect_ssh fs env id).2.1
  | Op.disconnectC id => (disconnect_ssh fs id).2.1

/-- Apply a sequence of public operations from a starting state. -/
def applyOps (fs : FullState) (ops : List Op) : FullState :=
  ops.foldl applyOp fs

/-- The guard under which an operation respects the tunnel foreign key: an
`addTun` must name an existing connection (the source does not check this). -/
def opOkB (fs : FullState) : Op → Bool
  | Op.addTun t _ => (lookupA t.connection_id fs.mgr.connections).isSome
  | _ => true

/-- Every operation of the sequence satisfies its guard at its point of
application. -/
def seqOkB : FullState → List Op → Bool
  | _, [] => true
  | fs, op :: rest => opOkB fs op && seqOkB (applyOp fs op) rest

/-- The catalog foreign-key invariant: every stored tunnel's `connection_id`
resolves to a stored connection. -/
def tunnelsResolve (fs : FullState) : Bool :=
  fs.mgr.tunnels.all (fun p => (lookupA p.2.connection_id fs.mgr.connections).isSome)

/-! ### Association-list lemmas -/

theorem lookupA_eraseA {α : Type} (k k2 : String) (m : AList α) :
    lookupA k (eraseA k2 m) = if k2 = k then none else lookupA k m := by
  induction m with
  | nil => simp only [eraseA, lookupA]; split <;> rfl
  | cons p rest ih =>
      obtain ⟨k3, v⟩ := p
      by_cases h1 : k3 = k2 <;> by_cases h2 : k3 = k
      · subst h1; subst h2
        simp [eraseA, lookupA, ih]
      · subst h1
        simp [eraseA, lookupA, ih, h2]
      · subst h2
        have h3 : ¬ k2 = k3 := fun h => h1 h.symm
        simp [eraseA, lookupA, h1, h3]
      · simp [eraseA, lookupA, h1, h2, ih]

theorem lookupA_insertA {α : Type} (k k2 : String) (v : α) (m : AList α) :
    lookupA k (insertA k2 v m) = if k2 = k then some v else lookupA k m := by
  by_cases h : k2 = k <;> simp [insertA, lookupA, lookupA_eraseA, h]

theorem modifyA_cons {α : Type} (k2 k3 : String) (v : α) (f : α → α)
    (rest : AList α) :
    modifyA k2 f ((k3, v) :: rest) =
      (if k3 = k2 then (k3, f v) else (k3, v)) :: modifyA k2 f rest := by
  by_cases h : k3 = k2 <;> simp [modifyA, h]

theorem lookupA_modifyA {α : Type} (k k2 : String) (f : α → α) (m : AList α) :
    lookupA k (modifyA k2 f m) =
      if k2 = k then (lookupA k m).map f else lookupA k m := by
  induction m with
  | nil => simp only [modifyA, List.map_nil, lookupA]; split <;> rfl
  | cons p rest ih =>
      obtain ⟨k3, v⟩ := p
      rw [modifyA_cons]
      by_cases h1 : k3 = k2 <;> by_cases h2 : k3 = k
      · subst h1; subst h2
        rw [if_pos rfl]
        simp [lookupA]
      · subst h1
        rw [if_pos rfl]
        simp [lookupA, h2, ih]
      · subst h2
        have h3 : ¬ k2 = k3 := fun h => h1 h.symm
        rw [if_neg h1]
        simp [lookupA, h3]
      · rw [if_neg h1]
        simp [lookupA, h1, h2, ih]

theorem isSome_lookupA_insertA {α : Type} (k k2 : String) (v : α) (m : AList α)
    (h : (lookupA k m).isSome = true) :
    (lookupA k (insertA k2 v m)).isSome = true := by
  rw [lookupA_insertA]
  split <;> simp [h]

theorem isSome_lookupA_modifyA {α : Type} (k k2 : String) (f : α → α) (m : AList α) :
    (lookupA k (modifyA k2 f m)).isSome = (lookupA k m).isSome := by
  rw [lookupA_modifyA]
  split <;> simp

theorem mem_eraseA {α : Type} (p : String × α) (k : String) (m : AList α)
    (h : p ∈ eraseA k m) : p ∈ m := by
  induction m with
  | nil => simp [eraseA] at h
  | cons q rest ih =>
      obtain ⟨k3, w⟩ := q
      by_cases h1 : k3 = k
      · simp only [eraseA, if_pos h1] at h
        exact List.mem_cons_of_mem _ (ih h)
      · simp only [eraseA, if_neg h1, List.mem_cons] at h
        rcases h with h | h
        · exact h ▸ List.mem_cons_self _ _
        · exact List.mem_cons_of_mem _ (ih h)

theorem mem_insertA {α : Type} (p : String × α) (k : String) (v : α) (m : AList α)
    (h : p ∈ insertA k v m) : p = (k, v) ∨ p ∈ m := by
  simp only [insertA, List.mem_cons] at h
  rcases h with h | h
  · exact Or.inl h
  · exact Or.inr (mem_eraseA p k m h)

theorem mem_modifyA {α : Type} (p : String × α) (k : String) (f : α → α)
    (m : AList α) (h : p ∈ modifyA k f m) :
    ∃ q ∈ m, p.2 = q.2 ∨ p.2 = f q.2 := by
  simp only [modifyA, List.mem_map] at h
  obtain ⟨q, hq, hpq⟩ := h
  refine ⟨q, hq, ?_⟩
  by_cases h1 : q.1 = k
  · simp only [if_pos h1] at hpq
    right; rw [← hpq]
  · simp only [if_neg h1] at hpq
    left; rw [← hpq]

/-! ### Preservation of the catalog foreign-key invariant -/

/-- Every tunnel of `t2` carries a `connection_id` already carried by some
tunnel of `t1`. -/
def connIdsSub (t2 t1 : AList SSHTunnel) : Prop :=
  ∀ p ∈ t2, ∃ q ∈ t1, (p.2 : SSHTunnel).connection_id = (q.2 : SSHTunnel).connection_id

theorem connIdsSub_refl (t : AList SSHTunnel) : connIdsSub t t :=
  fun p hp => ⟨p, hp, rfl⟩

theorem connIdsSub_trans {t3 t2 t1 : AList SSHTunnel}
    (h32 : connIdsSub t3 t2) (h21 : connIdsSub t2 t1) : connIdsSub t3 t1 := by
  intro p hp
  obtain ⟨q, hq, hpq⟩ := h32 p hp
  obtain ⟨r, hr, hqr⟩ := h21 q hq
  exact ⟨r, hr, hpq.trans hqr⟩

theorem connIdsSub_modifyA (k : String) (f : SSHTunnel → SSHTunnel)
    (hf : ∀ t, (f t).connection_id = t.connection_id) (m : AList SSHTunnel) :
    connIdsSub (modifyA k f m) m := by
  intro p hp
  obtain ⟨q, hq, hpq⟩ := mem_modifyA p k f m hp
  refine ⟨q, hq, ?_⟩
  rcases hpq with h | h
  · rw [h]
  · rw [h, hf]

theorem connIdsSub_filter (pred : String × SSHTunnel → Bool) (m : AList SSHTunnel) :
    connIdsSub (m.filter pred) m :=
  fun p hp => ⟨p, (List.mem_filter.mp hp).1, rfl⟩

theorem connIdsSub_eraseA (k : String) (m : AList SSHTunnel) :
    connIdsSub (eraseA k m) m :=
  fun p hp => ⟨p, mem_eraseA p k m hp, rfl⟩

theorem connIdsSub_markInactive (ids : List String) (m : AList SSHTunnel) :
    connIdsSub (markInactive ids m) m := by
  induction ids generalizing m with
  | nil => exact connIdsSub_refl m
  | cons i rest ih =>
      exact connIdsSub_trans (ih _)
        (connIdsSub_modifyA i (fun t => { t with status := TunnelStatus.inactive })
          (fun t => rfl) m)

/-- `k` resolves in `c2` whenever it resolves in `c1`. -/
def connKeysExt (c1 c2 : AList SSHConnection) : Prop :=
  ∀ k, (lookupA k c1).isSome = true → (lookupA k c2).isSome = true

theorem connKeysExt_refl (c : AList SSHConnection) : connKeysExt c c :=
  fun _ h => h

theorem connKeysExt_insertA (k : String) (v : SSHConnection) (c : AList SSHConnection) :
    connKeysExt c (insertA k v c) :=
  fun k2 h => isSome_lookupA_insertA k2 k v c h

theorem connKeysExt_modifyA (k : String) (f : SSHConnection → SSHConnection)
    (c : AList SSHConnection) : connKeysExt c (modifyA k f c) := by
  intro k2 h
  rw [isSome_lookupA_modifyA]
  exact h

theorem connKeysExt_modifyA_modifyA (k1 k2 : String)
    (f g : SSHConnection → SSHConnection) (c : AList SSHConnection) :
    connKeysExt c (modifyA k2 g (modifyA k1 f c)) := by
  intro k h
  rw [isSome_lookupA_modifyA, isSome_lookupA_modifyA]
  exact h

/-- The Prop form of the invariant over bare maps. -/
def resolvesIn (tunnels : AList SSHTunnel) (connections : AList SSHConnection) : Prop :=
  ∀ p ∈ tunnels, (lookupA (p.2 : SSHTunnel).connection_id connections).isSome = true

theorem resolvesIn_mono {t2 t1 : AList SSHTunnel} {c1 c2 : AList SSHConnection}
    (ht : connIdsSub t2 t1) (hc : connKeysExt c1 c2) (h : resolvesIn t1 c1) :
    resolvesIn t2 c2 := by
  intro p hp
  obtain ⟨q, hq, hpq⟩ := ht p hp
  rw [hpq]
  exact hc _ (h q hq)

theorem save_to_storage_mgr (fs : FullState) : (save_to_storage fs).mgr = fs.mgr := rfl

theorem tunnelsResolve_iff (fs : FullState) :
    tunnelsResolve fs = true ↔ resolvesIn fs.mgr.tunnels fs.mgr.connections := by
  simp [tunnelsResolve, resolvesIn, List.all_eq_true]

/-- `startTunnels` only rewrites tunnel statuses and the active map, so the
foreign-key invariant survives it. -/
theorem startTunnels_preserves (cid : String) (startOk : String → Bool)
    (l : List SSHTunnel) (s : ManagerState)
    (h : resolvesIn s.tunnels s.connections) :
    resolvesIn (startTunnels cid startOk l s).tunnels
      (startTunnels cid startOk l s).connections := by
  induction l generalizing s with
  | nil => exact h
  | cons t rest ih =>
      cases h1 : s.ssh_sessions.contains cid with
      | false =>
          simp only [startTunnels, h1, Bool.false_eq_true, if_false]
          exact ih s h
      | true =>
          cases h2 : startOk t.id with
          | false =>
              simp only [startTunnels, h1, h2, Bool.false_eq_true, if_false, if_true]
              exact h
          | true =>
              simp only [startTunnels, h1, h2, if_true]
              apply ih
              exact resolvesIn_mono
                (connIdsSub_modifyA t.id
                  (fun x => { x with status := TunnelStatus.active })
                  (fun x => rfl) s.tunnels)
                (connKeysExt_refl _) h

/-- One guarded public operation preserves the foreign-key invariant. -/
theorem applyOp_preserves_resolve (fs : FullState) (op : Op)
    (hok : opOkB fs op = true) (h : tunnelsResolve fs = true) :
    tunnelsResolve (applyOp fs op) = true := by
  rw [tunnelsResolve_iff] at h ⊢
  cases op with
  | addConn c fresh now =>
      simp only [applyOp, add_connection, save_to_storage]
      exact resolvesIn_mono (connIdsSub_refl _) (connKeysExt_insertA _ _ _) h
  | updateConn id u =>
      simp only [applyOp, update_connection]
      cases hl : lookupA id fs.mgr.connections with
      | none => simpa using h
      | some c =>
          simp only [save_to_storage]
          exact resolvesIn_mono (connIdsSub_refl _) (connKeysExt_modifyA _ _ _) h
  | deleteConn id =>
      simp only [applyOp, delete_connection, save_to_storage]
      intro p hp
      have hmem := List.mem_filter.mp hp
      have hne : (p.2 : SSHTunnel).connection_id ≠ id := by
        have := hmem.2
        simpa using this
      rw [lookupA_eraseA]
      rw [if_neg (fun hh => hne hh.symm)]
      exact h p hmem.1
  | addTun t fresh =>
      simp only [applyOp, add_tunnel, save_to_storage]
      intro p hp
      rcases mem_insertA p fresh _ _ hp with hp1 | hp1
      · rw [hp1]
        simpa [opOkB] using hok
      · exact h p hp1
  | updateTun id u =>
      simp only [applyOp, update_tunnel]
      cases hl : lookupA id fs.mgr.tunnels with
      | none => simpa using h
      | some t =>
          simp only [save_to_storage]
          exact resolvesIn_mono
            (connIdsSub_modifyA id
              (fun t => { t with
                            name := u.name
                            tunnel_type := u.tunnel_type
                            local_port := u.local_port
                            remote_host := u.remote_host
                            remote_port := u.remote_port
                            auto_reconnect := u.auto_reconnect })
              (fun x => rfl) fs.mgr.tunnels)
            (connKeysExt_refl _) h
  | deleteTun id =>
      simp only [applyOp, delete_tunnel, save_to_storage]
      exact resolvesIn_mono (connIdsSub_eraseA id _) (connKeysExt_refl _) h
  | stopTun id =>
      simp only [applyOp, stop_tunnel, save_to_storage]
      exact resolvesIn_mono
        (connIdsSub_modifyA id (fun t => { t with status := TunnelStatus.inactive })
          (fun x => rfl) fs.mgr.tunnels)
        (connKeysExt_refl _) h
  | connectC id env =>
      simp only [applyOp, connect_ssh]
      cases hl : lookupA id fs.mgr.connections with
      | none => simpa using h
      | some c =>
          by_cases ht : env.testResult.success = false
          · simp only [if_pos ht]
            exact resolvesIn_mono (connIdsSub_refl _)
              (connKeysExt_modifyA_modifyA id id
                (fun c => { c with status := ConnectionStatus.connecting })
                (fun c => { c with status := ConnectionStatus.error })
                fs.mgr.connections) h
          · simp only [if_neg ht]
            by_cases he : env.establishOk
            · simp only [if_pos he, start_all_tunnels_for_connection, save_to_storage]
              apply startTunnels_preserves
              exact resolvesIn_mono (connIdsSub_refl _)
                (connKeysExt_modifyA_modifyA id id
                  (fun c => { c with status := ConnectionStatus.connecting })
                  (fun c => { c with
                                status := ConnectionStatus.connected
                                last_connected := some env.now })
                  fs.mgr.connections) h
            · simp only [if_neg he]
              exact resolvesIn_mono (connIdsSub_refl _)
                (connKeysExt_modifyA_modifyA id id
                  (fun c => { c with status := ConnectionStatus.connecting })
                  (fun c => { c with status := ConnectionStatus.error })
                  fs.mgr.connections) h
  | disconnectC id =>
      simp only [applyOp, disconnect_ssh]
      cases hl : lookupA id fs.mgr.connections with
      | none => simpa using h
      | some c =>
          simp only [save_to_storage]
          exact resolvesIn_mono (connIdsSub_markInactive _ _)
            (connKeysExt_modifyA id
              (fun c => { c with status := ConnectionStatus.disconnected })
              fs.mgr.connections) h

/-- A guarded sequence of public operations preserves the invariant. -/
theorem applyOps_preserves_resolve (ops : List Op) (fs : FullState)
    (hok : seqOkB fs ops = true) (h : tunnelsResolve fs = true) :
    tunnelsResolve (applyOps fs ops) = true := by
  induction ops generalizing fs with
  | nil => simpa [applyOps] using h
  | cons op rest ih =>
      simp only [seqOkB, Bool.and_eq_true] at hok
      simp only [applyOps, List.foldl_cons]
      exact ih _ hok.2 (applyOp_preserves_resolve fs op hok.1 h)

/-! ### Concrete fixtures -/

/-- A sample endpoint record. -/
def sampleConn : SSHConnection :=
  { id := "c1"
    name := "srv"
    host := "example.com"
    port := 22
    username := "root"
    auth_method := AuthMethod.password
    password := some "pw"
    key_path := none
    status := ConnectionStatus.disconnected
    last_connected := none
    created_at := 0 }

/-- A sample tunnel record referencing `c1`. -/
def sampleTunnel : SSHTunnel :=
  { id := "t1"
    connection_id := "c1"
    name := "fwd"
    tunnel_type := TunnelType.localFwd
    local_port := 15432
    remote_host := "127.0.0.1"
    remote_port := 5432
    status := TunnelStatus.inactive
    auto_reconnect := false }

/-- A tunnel whose `connection_id` names no stored connection. -/
def ghostTunnel : SSHTunnel := { sampleTunnel with id := "t9", connection_id := "ghost" }

/-- A small well-formed operation sequence: create an endpoint, then a tunnel
under it. -/
def sampleOps : List Op :=
  [Op.addConn sampleConn "c1" 0, Op.addTun sampleTunnel "t1"]

/-! ### C1: the catalog foreign-key invariant -/

/-- C1 (counterexample): the invariant as claimed is false: the state reached
from the initial state by the single public call `addTunnel` with a
`connection_id` that names no endpoint contains a dangling tunnel, because
`ConnectionManager::add_tunnel` performs no existence check. -/
theorem C1_counterexample :
    tunnelsResolve (applyOps emptyState [Op.addTun ghostTunnel "t1"]) = false := by
  decide

/-- C1 (amended): provided every `addTunnel` call of the sequence names an
existing endpoint, every state reachable by the public API satisfies the
foreign-key invariant; and unconditionally, deleting an endpoint leaves no
tunnel referencing it (the cascade of `delete_connection`). -/
theorem C1_catalog_invariant :
    (∀ ops : List Op, seqOkB emptyState ops = true →
        tunnelsResolve (applyOps emptyState ops) = true) ∧
    (∀ (fs : FullState) (id : String),
        ((applyOp fs (Op.deleteConn id)).mgr.tunnels.all
          (fun p => p.2.connection_id != id)) = true) := by
  constructor
  · intro ops hok
    exact applyOps_preserves_resolve ops emptyState hok rfl
  · intro fs id
    rw [List.all_eq_true]
    intro p hp
    simp only [applyOp, delete_connection, save_to_storage] at hp
    have h2 := (List.mem_filter.mp hp).2
    simpa [bne_iff_ne] using h2

/-- C1 (witness): the guarded invariant and the cascade evaluated on the
sample sequence. -/
theorem C1_catalog_invariant_witness :
    seqOkB emptyState sampleOps = true ∧
      tunnelsResolve (applyOps emptyState sampleOps) = true ∧
      ((applyOp (applyOps emptyState sampleOps) (Op.deleteConn "c1")).mgr.tunnels.all
        (fun p => p.2.connection_id != "c1")) = true :=
  ⟨by decide, C1_catalog_invariant.1 sampleOps (by decide),
   C1_catalog_invariant.2 (applyOps emptyState sampleOps) "c1"⟩

/-! ### C6: updateEndpoint merges only the mutable fields -/

/-- C6: `update_connection` merges exactly name/host/port/username/auth_method/
password/key_path into the stored endpoint, leaves `status`, `last_connected`
and `created_at` (and every other endpoint, and the tunnels map) unchanged, and
when the id is absent fails with the not-found error, producing no new state. -/
theorem C6_update_endpoint (fs : FullState) (id : String) (u : SSHConnection) :
    (∀ old, lookupA id fs.mgr.connections = some old →
      ∃ fs2, update_connection fs id u = Except.ok fs2 ∧
        lookupA id fs2.mgr.connections = some
          { old with
              name := u.name
              host := u.host
              port := u.port
              username := u.username
              auth_method := u.auth_method
              password := u.password
              key_path := u.key_path } ∧
        (∀ k, k ≠ id → lookupA k fs2.mgr.connections = lookupA k fs.mgr.connections) ∧
        fs2.mgr.tunnels = fs.mgr.tunnels) ∧
    (lookupA id fs.mgr.connections = none →
      update_connection fs id u = Except.error "Connection not found") := by
  constructor
  · intro old hold
    refine ⟨save_to_storage
        { fs with mgr := { fs.mgr with
            connections := modifyA id (fun c =>
              { c with
                  name := u.name
                  host := u.host
                  port := u.port
                  username := u.username
                  auth_method := u.auth_method
                  password := u.password
                  key_path := u.key_path }) fs.mgr.connections } },
      ?_, ?_, ?_, rfl⟩
    · simp only [update_connection, hold]
    · simp only [save_to_storage_mgr]
      rw [lookupA_modifyA, if_pos rfl, hold]
      rfl
    · intro k hk
      simp only [save_to_storage_mgr]
      rw [lookupA_modifyA, if_neg (fun h => hk h.symm)]
  · intro hnone
    simp only [update_connection, hnone]

/-- C6 (witness): evaluated on a one-endpoint state and on the empty state. -/
theorem C6_update_endpoint_witness :
    lookupA "c1" (applyOps emptyState sampleOps).mgr.connections =
        some { sampleConn with id := "c1" } ∧
      (∃ fs2, update_connection (applyOps emptyState sampleOps) "c1"
          { sampleConn with name := "renamed", host := "other.example" } =
            Except.ok fs2 ∧
        lookupA "c1" fs2.mgr.connections = some
          { { sampleConn with id := "c1" } with
              name := "renamed"
              host := "other.example"
              port := 22
              username := "root"
              auth_method := AuthMethod.password
              password := some "pw"
              key_path := none } ∧
        (∀ k, k ≠ "c1" →
          lookupA k fs2.mgr.connections =
            lookupA k (applyOps emptyState sampleOps).mgr.connections) ∧
        fs2.mgr.tunnels = (applyOps emptyState sampleOps).mgr.tunnels) ∧
      lookupA "nope" emptyState.mgr.connections = none ∧
      update_connection emptyState "nope" sampleConn =
        Except.error "Connection not found" :=
  ⟨by decide,
   (C6_update_endpoint (applyOps emptyState sampleOps) "c1"
      { sampleConn with name := "renamed", host := "other.example" }).1
     { sampleConn with id := "c1" } (by decide),
   by decide,
   (C6_update_endpoint emptyState "nope" sampleConn).2 (by decide)⟩

/-! ### C8: updateTunnel never changes connection_id -/

/-- The `connection_id` a tunnel record keeps through
`ConnectionManager::update_tunnel` is the one it already had. -/
theorem update_tunnel_connection_id (fs : FullState) (id : String)
    (u t : SSHTunnel) (hl : lookupA id fs.mgr.tunnels = some t)
    (fs2 : FullState) (h : update_tunnel fs id u = Except.ok fs2) :
    (lookupA id fs2.mgr.tunnels).map SSHTunnel.connection_id =
      some t.connection_id := by
  simp only [update_tunnel, hl, Except.ok.injEq] at h
  rw [← h]
  simp only [save_to_storage_mgr]
  rw [lookupA_modifyA, if_pos rfl, hl]
  rfl

/-- C8: after `updateTunnel` (both at the engine level and through the tauri
command, whose request may carry a different `connection_id`), the stored
tunnel's `connection_id` is unchanged: ssh.rs `update_tunnel` (498-515) never
assigns it, so the value fixed at creation persists. -/
theorem C8_update_tunnel_connection_id (fs : FullState) (id : String)
    (t : SSHTunnel) (hl : lookupA id fs.mgr.tunnels = some t) :
    (∀ (u : SSHTunnel) (fs2 : FullState), update_tunnel fs id u = Except.ok fs2 →
        (lookupA id fs2.mgr.tunnels).map SSHTunnel.connection_id =
          some t.connection_id) ∧
    (∀ (req : UpdateTunnelRequest), req.id = id →
        ∀ fs2, cmd_update_tunnel fs req = Except.ok fs2 →
          (lookupA id fs2.mgr.tunnels).map SSHTunnel.connection_id =
            some t.connection_id) := by
  constructor
  · intro u fs2 h
    exact update_tunnel_connection_id fs id u t hl fs2 h
  · intro req hreq fs2 h
    simp only [cmd_update_tunnel] at h
    cases hfind : (fs.mgr.tunnels.map (fun p => p.2)).find?
        (fun (x : SSHTunnel) => x.id = req.id) with
    | none => rw [hfind] at h; exact absurd h (by simp)
    | some ex =>
        rw [hfind] at h
        cases hp : parseTunnelType req.tunnel_type with
        | none => rw [hp] at h; exact absurd h (by simp)
        | some tt =>
            rw [hp] at h
            rw [hreq] at h
            exact update_tunnel_connection_id fs id _ t hl fs2 h

/-- C8 (witness): a request re-parenting `t1` to `ghost` leaves the stored
`connection_id` at `c1`. -/
theorem C8_update_tunnel_connection_id_witness :
    lookupA "t1" (applyOps emptyState sampleOps).mgr.tunnels =
        some { sampleTunnel with id := "t1" } ∧
      (∀ fs2,
        cmd_update_tunnel (applyOps emptyState sampleOps)
            { id := "t1"
              name := "renamed"
              connection_id := "ghost"
              tunnel_type := "remote"
              local_port := 1
              remote_host := "10.0.0.1"
              remote_port := 2
              auto_reconnect := true } = Except.ok fs2 →
          (lookupA "t1" fs2.mgr.tunnels).map SSHTunnel.connection_id =
            some "c1") :=
  ⟨by decide,
   fun fs2 h =>
     (C8_update_tunnel_connection_id (applyOps emptyState sampleOps) "t1"
        { sampleTunnel with id := "t1" } (by decide)).2
       { id := "t1"
         name := "renamed"
         connection_id := "ghost"
         tunnel_type := "remote"
         local_port := 1
         remote_host := "10.0.0.1"
         remote_port := 2
         auto_reconnect := true } (by decide) fs2 h⟩

/-! ### C9: idempotence of the teardown operations -/

/-- `disconnect_ssh` on a present endpoint reports success and leaves the
endpoint present (status `Disconnected`). -/
theorem disconnect_ssh_success (fs : FullState) (id : String) (c : SSHConnection)
    (hc : lookupA id fs.mgr.connections = some c) :
    (disconnect_ssh fs id).1.success = true ∧
      lookupA id ((disconnect_ssh fs id).2.1).mgr.connections =
        some { c with status := ConnectionStatus.disconnected } := by
  constructor
  · simp only [disconnect_ssh, hc]
  · simp only [disconnect_ssh, hc, save_to_storage_mgr]
    rw [lookupA_modifyA, if_pos rfl, hc]
    rfl

/-- C9: `deleteTunnel` twice in a row succeeds both times; `disconnect` twice
in a row succeeds both times on an existing endpoint; `stopTunnel` with no
active worker succeeds. -/
theorem C9_idempotent_teardown :
    (∀ (fs : FullState) (id : String), ∃ fs1 fs2,
        delete_tunnel fs id = Except.ok fs1 ∧ delete_tunnel fs1 id = Except.ok fs2) ∧
    (∀ (fs : FullState) (id : String) (c : SSHConnection),
        lookupA id fs.mgr.connections = some c →
          (disconnect_ssh fs id).1.success = true ∧
          (disconnect_ssh (disconnect_ssh fs id).2.1 id).1.success = true) ∧
    (∀ (fs : FullState) (id : String),
        lookupA id fs.mgr.active_tunnels = none →
          ∃ fs1, stop_tunnel fs id = Except.ok fs1) := by
  refine ⟨?_, ?_, ?_⟩
  · intro fs id
    exact ⟨_, _, rfl, rfl⟩
  · intro fs id c hc
    obtain ⟨h1, h2⟩ := disconnect_ssh_success fs id c hc
    exact ⟨h1, (disconnect_ssh_success _ id _ h2).1⟩
  · intro fs id _
    exact ⟨_, rfl⟩

/-- C9 (witness): the three idempotence facts evaluated on the sample state. -/
theorem C9_idempotent_teardown_witness :
    (∃ fs1 fs2,
        delete_tunnel (applyOps emptyState sampleOps) "t1" = Except.ok fs1 ∧
          delete_tunnel fs1 "t1" = Except.ok fs2) ∧
      (lookupA "c1" (applyOps emptyState sampleOps).mgr.connections =
          some { sampleConn with id := "c1" } ∧
        (disconnect_ssh (applyOps emptyState sampleOps) "c1").1.success = true ∧
        (disconnect_ssh
            (disconnect_ssh (applyOps emptyState sampleOps) "c1").2.1
            "c1").1.success = true) ∧
      (lookupA "t1" (applyOps emptyState sampleOps).mgr.active_tunnels = none ∧
        ∃ fs1, stop_tunnel (applyOps emptyState sampleOps) "t1" = Except.ok fs1) :=
  ⟨C9_idempotent_teardown.1 (applyOps emptyState sampleOps) "t1",
   ⟨by decide,
    C9_idempotent_teardown.2.1 (applyOps emptyState sampleOps) "c1"
      { sampleConn with id := "c1" } (by decide)⟩,
   ⟨by decide, C9_idempotent_teardown.2.2 (applyOps emptyState sampleOps) "t1" (by decide)⟩⟩

/-! ### C10: every mutation's persistence step preserves the settings -/

/-- Every public operation either leaves the disk untouched or writes it
through `save_connections_and_tunnels` on the pre-operation disk. -/
theorem applyOp_disk (fs : FullState) (op : Op) :
    (applyOp fs op).disk = fs.disk ∨
      (applyOp fs op).disk =
        save_connections_and_tunnels (applyOp fs op).mgr.connections
          (applyOp fs op).mgr.tunnels fs.disk := by
  cases op with
  | addConn c fresh now => exact Or.inr rfl
  | updateConn id u =>
      cases hl : lookupA id fs.mgr.connections with
      | none => left; simp [applyOp, update_connection, hl]
      | some c =>
          right
          simp [applyOp, update_connection, hl, save_to_storage]
  | deleteConn id => exact Or.inr rfl
  | addTun t fresh => exact Or.inr rfl
  | updateTun id u =>
      cases hl : lookupA id fs.mgr.tunnels with
      | none => left; simp [applyOp, update_tunnel, hl]
      | some t =>
          right
          simp [applyOp, update_tunnel, hl, save_to_storage]
  | deleteTun id => exact Or.inr rfl
  | stopTun id => exact Or.inr rfl
  | connectC id env =>
      cases hl : lookupA id fs.mgr.connections with
      | none => left; simp [applyOp, connect_ssh, hl]
      | some c =>
          by_cases ht : env.testResult.success = false
          · left
            simp [applyOp, connect_ssh, hl, ht]
          · by_cases he : env.establishOk
            · right
              simp [applyOp, connect_ssh, hl, ht, he, save_to_storage]
            · left
              simp [applyOp, connect_ssh, hl, ht, he]
  | disconnectC id =>
      cases hl : lookupA id fs.mgr.connections with
      | none => left; simp [applyOp, disconnect_ssh, hl]
      | some c =>
          right
          simp [applyOp, disconnect_ssh, hl, save_to_storage]

/-- C10: for every public mutation, when `data.json` holds a document before
the call, it holds a document with the same `settings` object after it: the
save path reloads the on-disk document and replaces only `connections` and
`tunnels` (storage.rs 124-133). -/
theorem C10_settings_frame (fs : FullState) (op : Op) (d : AppData)
    (hd : fs.disk = some d) :
    ∃ d2, (applyOp fs op).disk = some d2 ∧ d2.settings = d.settings := by
  rcases applyOp_disk fs op with h | h
  · exact ⟨d, by rw [h, hd], rfl⟩
  · refine ⟨{ d with
               connections := (applyOp fs op).mgr.connections
               tunnels := (applyOp fs op).mgr.tunnels }, ?_, rfl⟩
    rw [h, hd]
    rfl

/-- The document written by the sample sequence. -/
def sampleDoc : AppData :=
  { connections := [("c1", { sampleConn with id := "c1" })]
    tunnels := [("t1", { sampleTunnel with id := "t1" })]
    settings := defaultAppConfig }

/-- C10 (witness): deleting the sample tunnel leaves the persisted settings
object untouched. -/
theorem C10_settings_frame_witness :
    (applyOps emptyState sampleOps).disk = some sampleDoc ∧
      ∃ d2,
        (applyOp (applyOps emptyState sampleOps) (Op.deleteTun "t1")).disk = some d2 ∧
          d2.settings = sampleDoc.settings :=
  ⟨by decide,
   C10_settings_frame (applyOps emptyState sampleOps) (Op.deleteTun "t1") sampleDoc
     (by decide)⟩

/-! ### Trace-ordering infrastructure -/

/-- Every event satisfying `p` occurs strictly before every event satisfying
`q` in the trace. -/
def allBefore (p q : Event → Bool) (tr : List Event) : Prop :=
  ∀ i j e1 e2, tr.get? i = some e1 → tr.get? j = some e2 →
    p e1 = true → q e2 = true → i < j

theorem allBefore_append (p q : Event → Bool) (a b : List Event)
    (ha : ∀ e ∈ a, q e = false) (hb : ∀ e ∈ b, p e = false) :
    allBefore p q (a ++ b) := by
  intro i j e1 e2 h1 h2 hp hq
  by_cases hj : j < a.length
  · rw [List.get?_append hj] at h2
    have hfalse := ha e2 (List.get?_mem h2)
    rw [hfalse] at hq
    exact absurd hq (by simp)
  · by_cases hi : i < a.length
    · omega
    · rw [List.get?_append_right (le_of_not_lt hi)] at h1
      have hfalse := hb e1 (List.get?_mem h1)
      rw [hfalse] at hp
      exact absurd hp (by simp)

theorem allBefore_cons (p q : Event → Bool) (x : Event) (l : List Event)
    (hx : q x = false) (h : allBefore p q l) : allBefore p q (x :: l) := by
  intro i j e1 e2 h1 h2 hp hq
  match i, j with
  | _, 0 =>
      simp only [List.get?] at h2
      cases h2
      rw [hx] at hq
      exact absurd hq (by simp)
  | 0, j2 + 1 => omega
  | i2 + 1, j2 + 1 =>
      simp only [List.get?] at h1 h2
      have := h i2 j2 e1 e2 h1 h2 hp hq
      omega

/-- Recognizer: a worker-cancellation event. -/
def isCancelEv : Event → Bool
  | Event.cancelWorker _ => true
  | _ => false

/-- Recognizer: a session-registry removal event. -/
def isRemoveSessionEv : Event → Bool
  | Event.removeSession _ => true
  | _ => false

/-- Recognizer: the persistence event. -/
def isSaveEv : Event → Bool
  | Event.saveStorage => true
  | _ => false

/-- Recognizer: the flip of an endpoint's status to `Disconnected`. -/
def isFlipDisconnectedEv (id : String) : Event → Bool
  | Event.setConnStatus i ConnectionStatus.disconnected => i = id
  | _ => false

/-- Recognizer: a tunnel-status marking event. -/
def isMarkEv : Event → Bool
  | Event.setTunnelStatus _ _ => true
  | _ => false

/-! ### C2: connect sets Connecting, then authenticates -/

/-- An environment in which the authentication probe fails. -/
def failEnv : ConnectEnv :=
  { testResult :=
      { success := false
        message := "SSH authentication failed"
        error_code := some "SSH_AUTH_ERROR" }
    establishOk := false
    now := 0
    startOk := fun _ => true }

/-- C2 (counterexample): the claim that `connect` persists the `Connecting`
status to disk before running authentication is false: on a concrete state and
a failing probe, authentication runs yet no persistence event occurs at all in
the whole call. -/
theorem C2_counterexample :
    failEnv.testResult.success = false ∧
      Event.runAuth "c1" ∈
        (connect_ssh (applyOps emptyState sampleOps) failEnv "c1").2.2 ∧
      Event.saveStorage ∉
        (connect_ssh (applyOps emptyState sampleOps) failEnv "c1").2.2 := by
  decide

/-- C2 (amended): `connect_ssh` on a present endpoint sets the status to
`Connecting` in memory (first event) and then runs authentication (second
event); no disk write happens before the authentication; and when the probe
fails, the probe's failure result is returned, the status is set to `Error`,
no session is stored, and nothing is persisted. -/
theorem C2_connect_behavior (fs : FullState) (env : ConnectEnv) (id : String)
    (c : SSHConnection) (hc : lookupA id fs.mgr.connections = some c) :
    ((connect_ssh fs env id).2.2.get? 0 =
        some (Event.setConnStatus id ConnectionStatus.connecting)) ∧
      ((connect_ssh fs env id).2.2.get? 1 = some (Event.runAuth id)) ∧
      (∀ i, (connect_ssh fs env id).2.2.get? i = some Event.saveStorage → 1 < i) ∧
      (env.testResult.success = false →
        (connect_ssh fs env id).1 = env.testResult ∧
        (lookupA id ((connect_ssh fs env id).2.1).mgr.connections).map
            SSHConnection.status = some ConnectionStatus.error ∧
        ((connect_ssh fs env id).2.1).mgr.ssh_sessions = fs.mgr.ssh_sessions ∧
        Event.saveStorage ∉ (connect_ssh fs env id).2.2) := by
  by_cases ht : env.testResult.success = false
  · simp only [connect_ssh, hc, if_pos ht]
    refine ⟨?_, ?_, ?_, ?_⟩
    · trivial
    · trivial
    · intro i hi
      match i with
      | 0 => simp at hi
      | 1 => simp at hi
      | 2 => simp at hi
      | n + 3 => omega
    · intro _
      refine ⟨?_, ?_, ?_, ?_⟩
      · trivial
      · rw [lookupA_modifyA, if_pos rfl, lookupA_modifyA, if_pos rfl, hc]
        rfl
      · trivial
      · simp
  · simp only [connect_ssh, hc, if_neg ht]
    by_cases he : env.establishOk
    · simp only [if_pos he]
      refine ⟨?_, ?_, ?_, fun hfalse => absurd hfalse ht⟩
      · trivial
      · trivial
      · intro i hi
        match i with
        | 0 => simp at hi
        | 1 => simp at hi
        | n + 2 => omega
    · simp only [if_neg he]
      refine ⟨?_, ?_, ?_, fun hfalse => absurd hfalse ht⟩
      · trivial
      · trivial
      · intro i hi
        match i with
        | 0 => simp at hi
        | 1 => simp at hi
        | 2 => simp at hi
        | n + 3 => omega

/-- C2 (witness): the amended behavior evaluated on the sample state with a
failing probe. -/
theorem C2_connect_behavior_witness :
    lookupA "c1" (applyOps emptyState sampleOps).mgr.connections =
        some { sampleConn with id := "c1" } ∧
      (((connect_ssh (applyOps emptyState sampleOps) failEnv "c1").2.2.get? 0 =
          some (Event.setConnStatus "c1" ConnectionStatus.connecting)) ∧
        ((connect_ssh (applyOps emptyState sampleOps) failEnv "c1").2.2.get? 1 =
          some (Event.runAuth "c1")) ∧
        (∀ i, (connect_ssh (applyOps emptyState sampleOps) failEnv "c1").2.2.get? i =
            some Event.saveStorage → 1 < i) ∧
        (failEnv.testResult.success = false →
          (connect_ssh (applyOps emptyState sampleOps) failEnv "c1").1 =
            failEnv.testResult ∧
          (lookupA "c1"
              ((connect_ssh (applyOps emptyState sampleOps) failEnv "c1").2.1).mgr.connections).map
              SSHConnection.status = some ConnectionStatus.error ∧
          ((connect_ssh (applyOps emptyState sampleOps) failEnv "c1").2.1).mgr.ssh_sessions =
            (applyOps emptyState sampleOps).mgr.ssh_sessions ∧
          Event.saveStorage ∉
            (connect_ssh (applyOps emptyState sampleOps) failEnv "c1").2.2)) :=
  ⟨by decide,
   C2_connect_behavior (applyOps emptyState sampleOps) failEnv "c1"
     { sampleConn with id := "c1" } (by decide)⟩

/-! ### C3: the order of the disconnect steps -/

/-- A state with a connected endpoint, an active tunnel and a live session. -/
def liveState : FullState :=
  { mgr :=
      { connections :=
          [("c1", { sampleConn with id := "c1", status := ConnectionStatus.connected })]
        tunnels := [("t1", { sampleTunnel with id := "t1", status := TunnelStatus.active })]
        ssh_sessions := ["c1"]
        active_tunnels :=
          [("t1", { sampleTunnel with id := "t1", status := TunnelStatus.active })] }
    disk := some sampleDoc }

/-- C3 (counterexample): the claim that `disconnect` cancels the workers
before flipping the endpoint's status to `Disconnected` is false: on a state
with one active tunnel, the status flip is the first event of the call and
the worker cancellation comes after it. -/
theorem C3_counterexample :
    ¬ allBefore isCancelEv (isFlipDisconnectedEv "c1")
        (disconnect_ssh liveState "c1").2.2 := by
  intro h
  have h2 := h 1 0 (Event.cancelWorker "t1")
    (Event.setConnStatus "c1" ConnectionStatus.disconnected)
    (by decide) (by decide) (by decide) (by decide)
  omega

/-- C3 (amended): `disconnect_ssh` on a present endpoint flips the endpoint
status to `Disconnected` first (event 0); after that it cancels all the
endpoint's workers before removing the session from the registry and before
the persistence step, and marks the tunnel statuses before removing the
session; afterwards no active tunnel of the endpoint remains. -/
theorem C3_disconnect_order (fs : FullState) (id : String) (c : SSHConnection)
    (hc : lookupA id fs.mgr.connections = some c) :
    ((disconnect_ssh fs id).2.2.get? 0 =
        some (Event.setConnStatus id ConnectionStatus.disconnected)) ∧
      allBefore isCancelEv isRemoveSessionEv (disconnect_ssh fs id).2.2 ∧
      allBefore isCancelEv isSaveEv (disconnect_ssh fs id).2.2 ∧
      allBefore isMarkEv isRemoveSessionEv (disconnect_ssh fs id).2.2 ∧
      ((disconnect_ssh fs id).2.1).mgr.active_tunnels.all
        (fun p => p.2.connection_id != id) = true := by
  simp only [disconnect_ssh, hc]
  refine ⟨rfl, ?_, ?_, ?_, ?_⟩
  · simp only [List.cons_append, List.nil_append, List.append_assoc]
    apply allBefore_cons _ _ _ _ rfl
    apply allBefore_append
    · intro e he
      obtain ⟨x, _, rfl⟩ := List.mem_map.mp he
      rfl
    · intro e he
      rcases List.mem_append.mp he with h | h
      · obtain ⟨x, _, rfl⟩ := List.mem_map.mp h
        rfl
      · rcases h with _ | ⟨_, _ | ⟨_, h⟩⟩
        · rfl
        · rfl
        · cases h
  · simp only [List.cons_append, List.nil_append, List.append_assoc]
    apply allBefore_cons _ _ _ _ rfl
    apply allBefore_append
    · intro e he
      obtain ⟨x, _, rfl⟩ := List.mem_map.mp he
      rfl
    · intro e he
      rcases List.mem_append.mp he with h | h
      · obtain ⟨x, _, rfl⟩ := List.mem_map.mp h
        rfl
      · rcases h with _ | ⟨_, _ | ⟨_, h⟩⟩
        · rfl
        · rfl
        · cases h
  · simp only [List.cons_append, List.nil_append, List.append_assoc]
    apply allBefore_cons _ _ _ _ rfl
    rw [← List.append_assoc]
    apply allBefore_append
    · intro e he
      rcases List.mem_append.mp he with h | h
      · obtain ⟨x, _, rfl⟩ := List.mem_map.mp h
        rfl
      · obtain ⟨x, _, rfl⟩ := List.mem_map.mp h
        rfl
    · intro e he
      rcases he with _ | ⟨_, _ | ⟨_, h⟩⟩
      · rfl
      · rfl
      · cases h
  · rw [List.all_eq_true]
    intro p hp
    simp only [save_to_storage_mgr] at hp
    have h2 := (List.mem_filter.mp hp).2
    simpa [bne_iff_ne] using h2

/-- C3 (witness): the amended ordering evaluated on the live sample state. -/
theorem C3_disconnect_order_witness :
    lookupA "c1" liveState.mgr.connections =
        some { sampleConn with id := "c1", status := ConnectionStatus.connected } ∧
      (((disconnect_ssh liveState "c1").2.2.get? 0 =
          some (Event.setConnStatus "c1" ConnectionStatus.disconnected)) ∧
        allBefore isCancelEv isRemoveSessionEv (disconnect_ssh liveState "c1").2.2 ∧
        allBefore isCancelEv isSaveEv (disconnect_ssh liveState "c1").2.2 ∧
        allBefore isMarkEv isRemoveSessionEv (disconnect_ssh liveState "c1").2.2 ∧
        ((disconnect_ssh liveState "c1").2.1).mgr.active_tunnels.all
          (fun p => p.2.connection_id != "c1") = true) :=
  ⟨by decide,
   C3_disconnect_order liveState "c1"
     { sampleConn with id := "c1", status := ConnectionStatus.connected } (by decide)⟩

/-! ### C4: statuses on startup -/

/-- A persisted document whose status fields are not the quiescent ones. -/
def staleDoc : AppData :=
  { connections :=
      [("c1", { sampleConn with id := "c1", status := ConnectionStatus.connected })]
    tunnels := [("t1", { sampleTunnel with id := "t1", status := TunnelStatus.active })]
    settings := defaultAppConfig }

/-- A fresh manager whose `data.json` is the stale document. -/
def staleState : FullState := { mgr := newManager, disk := some staleDoc }

/-- C4 (counterexample): the claim that on startup every endpoint comes back
`Disconnected` and every tunnel `Inactive` is false: `load_from_storage`
installs the file content verbatim, so a file recording `connected` / `active`
statuses yields those statuses after initialization. -/
theorem C4_counterexample :
    (lookupA "c1" (load_from_storage staleState).mgr.connections).map
        SSHConnection.status = some ConnectionStatus.connected ∧
      (lookupA "t1" (load_from_storage staleState).mgr.tunnels).map
        SSHTunnel.status = some TunnelStatus.active ∧
      ConnectionStatus.connected ≠ ConnectionStatus.disconnected ∧
      TunnelStatus.active ≠ TunnelStatus.inactive := by
  decide

/-- C4 (amended): on startup the maps come back exactly as the file records
them — statuses included, with no normalization; a missing file yields the
empty maps. -/
theorem C4_load_verbatim (fs : FullState) :
    (∀ d : AppData, fs.disk = some d →
      (load_from_storage fs).mgr.connections = d.connections ∧
        (load_from_storage fs).mgr.tunnels = d.tunnels) ∧
    (fs.disk = none →
      (load_from_storage fs).mgr.connections = [] ∧
        (load_from_storage fs).mgr.tunnels = []) := by
  constructor
  · intro d hd
    constructor <;> simp [load_from_storage, load_data, hd]
  · intro hd
    constructor <;> simp [load_from_storage, load_data, hd, defaultAppData]

/-- C4 (witness): loading the stale document returns it verbatim. -/
theorem C4_load_verbatim_witness :
    staleState.disk = some staleDoc ∧
      ((load_from_storage staleState).mgr.connections = staleDoc.connections ∧
        (load_from_storage staleState).mgr.tunnels = staleDoc.tunnels) :=
  ⟨rfl, (C4_load_verbatim staleState).1 staleDoc rfl⟩

/-! ### C7: the test probe is timeout-bounded and effect-free -/

/-- C7: `test_connection` leaves the engine state and the disk exactly as they
were for every input, the probe's wall-clock bound is 5 seconds, and when the
probe overruns it the result is a failure carrying the `TIMEOUT` code. -/
theorem C7_test_pure_and_timeout (fs : FullState) (env : TestEnv)
    (c : SSHConnection) :
    (mgr_test_connection fs env c).2 = fs ∧
      test_timeout_secs = 5 ∧
      (test_timeout_secs < env.elapsed_secs →
        (mgr_test_connection fs env c).1 =
          { success := false
            message := "SSH connection test timed out"
            error_code := some "TIMEOUT" }) := by
  refine ⟨rfl, rfl, ?_⟩
  intro h
  simp [mgr_test_connection, test_ssh_connection, h]

/-- An environment in which the probe overruns the timeout. -/
def slowEnv : TestEnv :=
  { elapsed_secs := 6
    key_exists := fun _ => true
    tcp := none
    session_create_ok := true
    handshake_ok := true
    auth_ok := true
    authenticated := true }

/-- C7 (witness): a 6-second probe on the sample state times out and mutates
nothing. -/
theorem C7_test_pure_and_timeout_witness :
    (mgr_test_connection (applyOps emptyState sampleOps) slowEnv sampleConn).2 =
        applyOps emptyState sampleOps ∧
      test_timeout_secs = 5 ∧
      test_timeout_secs < slowEnv.elapsed_secs ∧
      (mgr_test_connection (applyOps emptyState sampleOps) slowEnv sampleConn).1 =
        { success := false
          message := "SSH connection test timed out"
          error_code := some "TIMEOUT" } :=
  ⟨(C7_test_pure_and_timeout (applyOps emptyState sampleOps) slowEnv sampleConn).1,
   rfl, by decide,
   (C7_test_pure_and_timeout (applyOps emptyState sampleOps) slowEnv sampleConn).2.2
     (by decide)⟩

/-! ### C5: the JSON persistence round trip

The serde_json document is modelled by a small JSON AST.  Serialization
follows the struct declarations: optional fields carrying
`skip_serializing_if = Option.is_none` are omitted when `None`
(`password`, `key_path`, `last_connected`); `created_at` carries
`serde(default)` and is defaulted to the current time when the field is
missing; `AppConfig.default_key_path` has no skip attribute and is written as
JSON null when `None`. -/

/-- Model of a serde_json value. -/
inductive Json where
  | nullJ
  | strJ (s : String)
  | numJ (n : Nat)
  | boolJ (b : Bool)
  | objJ (fields : List (String × Json))
  | arrJ (elems : List Json)

/-- `AuthMethod` serialization (`rename_all = "lowercase"`). -/
def authMethodToJson : AuthMethod → Json
  | AuthMethod.password => Json.strJ "password"
  | AuthMethod.key => Json.strJ "key"

def authMethodFromJson : Json → Option AuthMethod
  | Json.strJ "password" => some AuthMethod.password
  | Json.strJ "key" => some AuthMethod.key
  | _ => none

/-- `ConnectionStatus` serialization (`rename_all = "lowercase"`). -/
def connectionStatusToJson : ConnectionStatus → Json
  | ConnectionStatus.disconnected => Json.strJ "disconnected"
  | ConnectionStatus.connecting => Json.strJ "connecting"
  | ConnectionStatus.connected => Json.strJ "connected"
  | ConnectionStatus.error => Json.strJ "error"

def connectionStatusFromJson : Json → Option ConnectionStatus
  | Json.strJ "disconnected" => some ConnectionStatus.disconnected
  | Json.strJ "connecting" => some ConnectionStatus.connecting
  | Json.strJ "connected" => some ConnectionStatus.connected
  | Json.strJ "error" => some ConnectionStatus.error
  | _ => none

/-- `TunnelType` serialization (`rename_all = "lowercase"`). -/
def tunnelTypeToJson : TunnelType → Json
  | TunnelType.localFwd => Json.strJ "local"
  | TunnelType.remoteFwd => Json.strJ "remote"

def tunnelTypeFromJson : Json → Option TunnelType
  | Json.strJ "local" => some TunnelType.localFwd
  | Json.strJ "remote" => some TunnelType.remoteFwd
  | _ => none

/-- `TunnelStatus` serialization (`rename_all = "lowercase"`). -/
def tunnelStatusToJson : TunnelStatus → Json
  | TunnelStatus.inactive => Json.strJ "inactive"
  | TunnelStatus.active => Json.strJ "active"
  | TunnelStatus.error => Json.strJ "error"

def tunnelStatusFromJson : Json → Option TunnelStatus
  | Json.strJ "inactive" => some TunnelStatus.inactive
  | Json.strJ "active" => some TunnelStatus.active
  | Json.strJ "error" => some TunnelStatus.error
  | _ => none

/-- Traverse a list with a fallible function (the shape of serde's map
deserialization). -/
def mapMOpt {A B : Type} (f : A → Option B) : List A → Option (List B)
  | [] => some []
  | x :: rest => do
      let y ← f x
      let ys ← mapMOpt f rest
      some (y :: ys)

/-- A required string field. -/
def reqStr (fields : List (String × Json)) (name : String) : Option String :=
  match lookupA name fields with
  | some (Json.strJ s) => some s
  | _ => none

/-- A required number field. -/
def reqNum (fields : List (String × Json)) (name : String) : Option Nat :=
  match lookupA name fields with
  | some (Json.numJ n) => some n
  | _ => none

/-- A required boolean field. -/
def reqBool (fields : List (String × Json)) (name : String) : Option Bool :=
  match lookupA name fields with
  | some (Json.boolJ b) => some b
  | _ => none

/-- An `Option<String>` field: missing or null reads back as `None`. -/
def optStr (fields : List (String × Json)) (name : String) : Option (Option String) :=
  match lookupA name fields with
  | none => some none
  | some Json.nullJ => some none
  | some (Json.strJ s) => some (some s)
  | some _ => none

/-- An `Option<SystemTime>` field: missing or null reads back as `None`. -/
def optNum (fields : List (String × Json)) (name : String) : Option (Option Nat) :=
  match lookupA name fields with
  | none => some none
  | some Json.nullJ => some none
  | some (Json.numJ n) => some (some n)
  | some _ => none

/-- Serialization of `SSHConnection` (ssh.rs lines 13-30): `password`,
`key_path` and `last_connected` are omitted when `None`; `created_at` is
always written. -/
def connToJson (c : SSHConnection) : Json :=
  Json.objJ
    ([("id", Json.strJ c.id), ("name", Json.strJ c.name), ("host", Json.strJ c.host),
      ("port", Json.numJ c.port), ("username", Json.strJ c.username),
      ("auth_method", authMethodToJson c.auth_method)]
      ++ (match c.password with
          | some p => [("password", Json.strJ p)]
          | none => [])
      ++ (match c.key_path with
          | some p => [("key_path", Json.strJ p)]
          | none => [])
      ++ [("status", connectionStatusToJson c.status)]
      ++ (match c.last_connected with
          | some t => [("last_connected", Json.numJ t)]
          | none => [])
      ++ [("created_at", Json.numJ c.created_at)])

/-- Deserialization of `SSHConnection`: a missing `created_at` falls back to
`default_created_at()` (modelled by the `now` parameter). -/
def connFromJson (now : Nat) : Json → Option SSHConnection
  | Json.objJ fields => do
      let id ← reqStr fields "id"
      let name ← reqStr fields "name"
      let host ← reqStr fields "host"
      let port ← reqNum fields "port"
      let username ← reqStr fields "username"
      let am ← (lookupA "auth_method" fields).bind authMethodFromJson
      let pw ← optStr fields "password"
      let kp ← optStr fields "key_path"
      let st ← (lookupA "status" fields).bind connectionStatusFromJson
      let lc ← optNum fields "last_connected"
      let ca ← match lookupA "created_at" fields with
        | some (Json.numJ n) => some n
        | some _ => none
        | none => some now
      some { id := id, name := name, host := host, port := port,
             username := username, auth_method := am, password := pw,
             key_path := kp, status := st, last_connected := lc,
             created_at := ca }
  | _ => none

/-- Serialization of `SSHTunnel` (ssh.rs lines 52-63): every field required. -/
def tunnelToJson (t : SSHTunnel) : Json :=
  Json.objJ
    [("id", Json.strJ t.id), ("connection_id", Json.strJ t.connection_id),
     ("name", Json.strJ t.name), ("tunnel_type", tunnelTypeToJson t.tunnel_type),
     ("local_port", Json.numJ t.local_port), ("remote_host", Json.strJ t.remote_host),
     ("remote_port", Json.numJ t.remote_port),
     ("status", tunnelStatusToJson t.status),
     ("auto_reconnect", Json.boolJ t.auto_reconnect)]

def tunnelFromJson : Json → Option SSHTunnel
  | Json.objJ fields => do
      let id ← reqStr fields "id"
      let cid ← reqStr fields "connection_id"
      let name ← reqStr fields "name"
      let tt ← (lookupA "tunnel_type" fields).bind tunnelTypeFromJson
      let lp ← reqNum fields "local_port"
      let rh ← reqStr fields "remote_host"
      let rp ← reqNum fields "remote_port"
      let st ← (lookupA "status" fields).bind tunnelStatusFromJson
      let ar ← reqBool fields "auto_reconnect"
      some { id := id, connection_id := cid, name := name, tunnel_type := tt,
             local_port := lp, remote_host := rh, remote_port := rp,
             status := st, auto_reconnect := ar }
  | _ => none

/-- Serialization of `AppConfig` (settings.rs lines 3-12): `default_key_path`
has no skip attribute, so `None` is written as null. -/
def settingsToJson (s : AppConfig) : Json :=
  Json.objJ
    [("theme", Json.strJ s.theme), ("language", Json.strJ s.language),
     ("auto_start", Json.boolJ s.auto_start), ("log_level", Json.strJ s.log_level),
     ("default_key_path",
       match s.default_key_path with
       | some p => Json.strJ p
       | none => Json.nullJ),
     ("window_width", Json.numJ s.window_width),
     ("window_height", Json.numJ s.window_height)]

def settingsFromJson : Json → Option AppConfig
  | Json.objJ fields => do
      let theme ← reqStr fields "theme"
      let language ← reqStr fields "language"
      let auto_start ← reqBool fields "auto_start"
      let log_level ← reqStr fields "log_level"
      let dkp ← optStr fields "default_key_path"
      let ww ← reqNum fields "window_width"
      let wh ← reqNum fields "window_height"
      some { theme := theme, language := language, auto_start := auto_start,
             log_level := log_level, default_key_path := dkp,
             window_width := ww, window_height := wh }
  | _ => none

/-- Serialization of the `connections` map: a JSON object keyed by id. -/
def connsToJson (m : AList SSHConnection) : Json :=
  Json.objJ (m.map (fun p => (p.1, connToJson p.2)))

def connsFromJson (now : Nat) : Json → Option (AList SSHConnection)
  | Json.objJ fields =>
      mapMOpt (fun p => (connFromJson now p.2).map (fun c => (p.1, c))) fields
  | _ => none

/-- Serialization of the `tunnels` map. -/
def tunnelsToJson (m : AList SSHTunnel) : Json :=
  Json.objJ (m.map (fun p => (p.1, tunnelToJson p.2)))

def tunnelsFromJson : Json → Option (AList SSHTunnel)
  | Json.objJ fields =>
      mapMOpt (fun p => (tunnelFromJson p.2).map (fun t => (p.1, t))) fields
  | _ => none

/-- Serialization of the whole `AppData` document (storage.rs lines 8-13). -/
def appDataToJson (d : AppData) : Json :=
  Json.objJ
    [("connections", connsToJson d.connections),
     ("tunnels", tunnelsToJson d.tunnels),
     ("settings", settingsToJson d.settings)]

def appDataFromJson (now : Nat) : Json → Option AppData
  | Json.objJ fields => do
      let cs ← (lookupA "connections" fields).bind (connsFromJson now)
      let ts ← (lookupA "tunnels" fields).bind tunnelsFromJson
      let st ← (lookupA "settings" fields).bind settingsFromJson
      some { connections := cs, tunnels := ts, settings := st }
  | _ => none

theorem connRoundTrip (now : Nat) (c : SSHConnection) :
    connFromJson now (connToJson c) = some c := by
  obtain ⟨id, name, host, port, username, am, pw, kp, st, lc, ca⟩ := c
  cases pw <;> cases kp <;> cases lc <;> cases am <;> cases st <;>
    simp [connToJson, connFromJson, reqStr, reqNum, optStr, optNum, lookupA,
      authMethodToJson, authMethodFromJson, connectionStatusToJson,
      connectionStatusFromJson, Option.bind]

theorem tunnelRoundTrip (t : SSHTunnel) :
    tunnelFromJson (tunnelToJson t) = some t := by
  obtain ⟨id, cid, name, tt, lp, rh, rp, st, ar⟩ := t
  cases tt <;> cases st <;>
    simp [tunnelToJson, tunnelFromJson, reqStr, reqNum, reqBool, lookupA,
      tunnelTypeToJson, tunnelTypeFromJson, tunnelStatusToJson,
      tunnelStatusFromJson, Option.bind]

theorem settingsRoundTrip (s : AppConfig) :
    settingsFromJson (settingsToJson s) = some s := by
  obtain ⟨theme, language, auto_start, log_level, dkp, ww, wh⟩ := s
  cases dkp <;>
    simp [settingsToJson, settingsFromJson, reqStr, reqNum, reqBool, optStr,
      lookupA, Option.bind]

theorem connsRoundTrip (now : Nat) (m : AList SSHConnection) :
    connsFromJson now (connsToJson m) = some m := by
  simp only [connsToJson, connsFromJson]
  induction m with
  | nil => rfl
  | cons p rest ih =>
      simp [mapMOpt, connRoundTrip, ih]

theorem tunnelsRoundTrip (m : AList SSHTunnel) :
    tunnelsFromJson (tunnelsToJson m) = some m := by
  simp only [tunnelsToJson, tunnelsFromJson]
  induction m with
  | nil => rfl
  | cons p rest ih =>
      simp [mapMOpt, tunnelRoundTrip, ih]

/-- C5: serializing any catalog document to JSON and reading it back yields
the identical document — the skipped-when-`None` fields come back as `None`
and the always-written `created_at` never falls back to its default. -/
theorem C5_persistence_round_trip (d : AppData) (now : Nat) :
    appDataFromJson now (appDataToJson d) = some d := by
  obtain ⟨cs, ts, st⟩ := d
  simp [appDataToJson, appDataFromJson, lookupA, connsRoundTrip,
    tunnelsRoundTrip, settingsRoundTrip, Option.bind]

end Vesper
